import Mathlib

/-!
Shallow embedding of the policy, triage and orchestration core of the
kali-bounty-scanner-plus repository (src/src/policy/policy_engine.py,
src/src/triage/triage_ai.py, src/src/orchestrator.py), together with
theorems settling the specified properties.

Python floats are modelled as rationals (every float in the code is an
exact decimal literal or a product/sum of such), dictionaries with
optional keys as structures with `Option` fields (`dict.get(k, d)`
becomes `Option.getD`), and raised exceptions as the `.error` branch of
`Except`.  The external advisory call plus JSON parse is modelled by its
outcome: either a parse/call failure or the parsed payload.  String
primitives (startswith, endswith, lower, single-character replace) are
implemented over the character list so that all definitions evaluate by
kernel reduction.
-/

/-- Kernel-computable test that `p` is a prefix of `s` (as character lists). -/
def str_starts_list : List Char → List Char → Bool
  | [], _ => true
  | _ :: _, [] => false
  | a :: as, b :: bs => a == b && str_starts_list as bs

/-- Python `s.startswith(t)`. -/
def py_startswith (s t : String) : Bool :=
  str_starts_list t.toList s.toList

/-- Python `s.endswith(t)`. -/
def py_endswith (s t : String) : Bool :=
  str_starts_list t.toList.reverse s.toList.reverse

/-- Python `s[n:]` for a nonnegative index. -/
def str_drop (s : String) (n : Nat) : String :=
  ⟨s.toList.drop n⟩

/-- Python `s.lower()` (ASCII case folding suffices for the strings used). -/
def str_to_lower (s : String) : String :=
  ⟨s.toList.map Char.toLower⟩

/-- A policy decision dictionary: keys decision, confidence, reason, details
    (policy_engine.py returns such dicts from every path). -/
structure Decision where
  decision : String
  confidence : ℚ
  reason : String
  details : String
deriving DecidableEq, Repr

/-- One audit record written by db.storage.log_policy_decision. -/
structure AuditRecord where
  target : String
  action : String
  decision : String
  reason : String
  confidence : ℚ
deriving DecidableEq, Repr

/-- Scope file contents: the in_scope and out_of_scope pattern lists
    (scope_data.get('in_scope', []) / .get('out_of_scope', [])). -/
structure ScopeData where
  in_scope : List String
  out_of_scope : List String
deriving DecidableEq, Repr

/-- PolicyEngine._matches_pattern, translated clause for clause:
    exact equality; wildcard `*.`-pattern matched by the plain suffix test
    `target.endswith(domain_suffix)` or equality with the suffix; and the
    subdomain test `target.endswith('.' + pattern)`. -/
def matches_pattern (target pattern : String) : Bool :=
  if target == pattern then true
  else if py_startswith pattern "*." &&
      (py_endswith target (str_drop pattern 2) || target == str_drop pattern 2) then true
  else if py_endswith target ("." ++ pattern) then true
  else false

/-- TriageEngine._adjust_severity: severity remapping driven by the fused
    score; the original severity is `finding.get('severity','unknown').lower()`. -/
def adjust_severity (severity : Option String) (score : ℚ) : String :=
  let original_severity := str_to_lower (severity.getD "unknown")
  if score < mkRat 3 10 then "info"
  else if score < mkRat 5 10 then
    (if original_severity == "high" || original_severity == "critical" then "medium"
     else original_severity)
  else if score > mkRat 8 10 then
    (if original_severity == "medium" then "high" else original_severity)
  else original_severity

/-- Parsed fields of the advisory (Gemini) JSON payload; each key may be
    absent, matching `result.get(key, default)` in policy_engine.py. -/
structure ParsedPayload where
  decision : Option String
  confidence : Option ℚ
  reasons : Option (List String)
  suggested_next_steps : Option (List String)
  risk_level : Option String
deriving DecidableEq, Repr

/-- Outcome of `call_gemini` followed by `json.loads`: a raised exception
    (message) or the parsed payload. -/
abbrev GeminiOutcome := Except String ParsedPayload

/-- PolicyEngine._validate_scope_with_gemini, as a function of the advisory
    outcome: on success the fields are read with .get defaults
    (decision UNKNOWN, confidence 0.0); on any exception the except-branch
    returns UNKNOWN with confidence 0.0. -/
def validate_scope_with_gemini (outcome : GeminiOutcome) : Decision :=
  match outcome with
  | .ok result =>
      { decision := result.decision.getD "UNKNOWN"
        confidence := result.confidence.getD 0
        reason := String.intercalate "; " (result.reasons.getD ["Gemini validation"])
        details := String.intercalate "; " (result.suggested_next_steps.getD []) }
  | .error e =>
      { decision := "UNKNOWN"
        confidence := 0
        reason := "Gemini validation error: " ++ e
        details := "Manual review required" }

/-- PolicyEngine._validate_action_with_gemini: on success the decision
    defaults to BLOCKED when absent; on any exception it fails closed with
    BLOCKED, confidence 0.0. -/
def validate_action_with_gemini (outcome : GeminiOutcome) : Decision :=
  match outcome with
  | .ok result =>
      { decision := result.decision.getD "BLOCKED"
        confidence := result.confidence.getD 0
        reason := String.intercalate "; " (result.reasons.getD ["Gemini validation"])
        details := "Risk level: " ++ result.risk_level.getD "unknown" }
  | .error e =>
      { decision := "BLOCKED"
        confidence := 0
        reason := "Validation error: " ++ e
        details := "Failed to validate, blocking for safety" }

/-- Outcome of opening and JSON-parsing the scope file: `none` models no
    scope_file argument, `some (.error e)` a load/parse exception,
    `some (.ok d)` the loaded scope data. -/
abbrev ScopeFileOutcome := Option (Except String ScopeData)

/-- PolicyEngine.is_target_in_scope.  Returns the decision together with the
    audit records written by log_policy_decision on that path (every path of
    this function logs exactly once).  `gemini_key` models
    `config.get('GEMINI_API_KEY')` being set; `gemini` the advisory outcome
    used when no local pattern matches. -/
def is_target_in_scope (target : String) (scope_file : ScopeFileOutcome)
    (gemini_key : Bool) (gemini : GeminiOutcome) : Decision × List AuditRecord :=
  match scope_file with
  | none =>
      let d : Decision :=
        { decision := "UNKNOWN", confidence := 0
          reason := "No scope file provided"
          details := "Provide --scope-file with in-scope targets from your bug bounty program" }
      (d, [⟨target, "scope_check", d.decision, d.reason, d.confidence⟩])
  | some (.error e) =>
      let d : Decision :=
        { decision := "UNKNOWN", confidence := 0
          reason := "Failed to load scope file: " ++ e
          details := "Check scope file format" }
      (d, [⟨target, "scope_check", d.decision, d.reason, d.confidence⟩])
  | some (.ok scope_data) =>
      match scope_data.out_of_scope.find? (fun p => matches_pattern target p) with
      | some pattern =>
          let d : Decision :=
            { decision := "BLOCKED", confidence := 1
              reason := "Target matches out-of-scope pattern: " ++ pattern
              details := "This target is explicitly excluded from the program scope" }
          (d, [⟨target, "scope_check", d.decision, d.reason, d.confidence⟩])
      | none =>
          match scope_data.in_scope.find? (fun p => matches_pattern target p) with
          | some pattern =>
              let d : Decision :=
                { decision := "ALLOWED", confidence := 1
                  reason := "Target matches in-scope pattern: " ++ pattern
                  details := "Target is within defined program scope" }
              (d, [⟨target, "scope_check", d.decision, d.reason, d.confidence⟩])
          | none =>
              if gemini_key then
                let g := validate_scope_with_gemini gemini
                (g, [⟨target, "scope_check_gemini", g.decision, g.reason, g.confidence⟩])
              else
                let d : Decision :=
                  { decision := "UNKNOWN", confidence := 0
                    reason := "Target does not match any scope patterns"
                    details := "Add target to scope file or enable Gemini validation" }
                (d, [⟨target, "scope_check", d.decision, d.reason, d.confidence⟩])

/-- Kernel-computable substring containment (first argument the candidate
    substring): models `re.search` for a literal alternative. -/
def list_infix_chars : List Char → List Char → Bool
  | sub, [] => str_starts_list sub []
  | sub, c :: rest => str_starts_list sub (c :: rest) || list_infix_chars sub rest

/-- Does `s` contain `sub` as a substring. -/
def has_sub (s sub : String) : Bool :=
  list_infix_chars sub.toList s.toList

/-- re.search(r'(rce|remote[-_]?exec|command[-_]?injection)', template, IGNORECASE):
    the pattern is a disjunction of literals with one optional [-_] separator,
    expanded into the finitely many alternatives, over the lowercased template. -/
def matches_rce_templates (template : String) : Bool :=
  let s := str_to_lower template
  ["rce", "remoteexec", "remote-exec", "remote_exec",
   "commandinjection", "command-injection", "command_injection"].any (fun p => has_sub s p)

/-- re.search(r'(sqlmap|sql[-_]?injection[-_]?exploit)', template, IGNORECASE). -/
def matches_sql_exploit (template : String) : Bool :=
  let s := str_to_lower template
  ["sqlmap",
   "sqlinjectionexploit", "sqlinjection-exploit", "sqlinjection_exploit",
   "sql-injectionexploit", "sql-injection-exploit", "sql-injection_exploit",
   "sql_injectionexploit", "sql_injection-exploit", "sql_injection_exploit"].any
    (fun p => has_sub s p)

/-- re.search(r'(upload[-_]?exec|webshell)', template, IGNORECASE). -/
def matches_file_upload_exec (template : String) : Bool :=
  let s := str_to_lower template
  ["uploadexec", "upload-exec", "upload_exec", "webshell"].any (fun p => has_sub s p)

/-- re.search(r'(dos|denial[-_]?of[-_]?service|slowloris)', template, IGNORECASE). -/
def matches_dos_attacks (template : String) : Bool :=
  let s := str_to_lower template
  ["dos", "slowloris",
   "denialofservice", "denialof-service", "denialof_service",
   "denial-ofservice", "denial-of-service", "denial-of_service",
   "denial_ofservice", "denial_of-service", "denial_of_service"].any (fun p => has_sub s p)

/-- re.search(r'(auth[-_]?bypass|authentication)', template, IGNORECASE). -/
def matches_auth_bypass (template : String) : Bool :=
  let s := str_to_lower template
  ["authbypass", "auth-bypass", "auth_bypass", "authentication"].any (fun p => has_sub s p)

/-- re.search(r'(lfi|rfi|file[-_]?inclusion)', template, IGNORECASE). -/
def matches_file_inclusion (template : String) : Bool :=
  let s := str_to_lower template
  ["lfi", "rfi", "fileinclusion", "file-inclusion", "file_inclusion"].any (fun p => has_sub s p)

/-- One manifest rule: id, a compiled matcher for its regex (applied to the
    template string as `re.search(pattern, template, re.IGNORECASE)`), notes. -/
structure ManifestRule where
  id : String
  matcher : String → Bool
  notes : String

/-- The blocked-actions manifest: ordered blocked_patterns and
    requires_validation rule lists. -/
structure Manifest where
  blocked_patterns : List ManifestRule
  requires_validation : List ManifestRule

/-- PolicyEngine._get_default_manifest, with each regex realised as its
    kernel-computable matcher. -/
def default_manifest : Manifest where
  blocked_patterns :=
    [⟨"rce-templates", matches_rce_templates, "Remote code execution - high risk"⟩,
     ⟨"sql-exploit", matches_sql_exploit, "SQL exploitation tools - requires manual approval"⟩,
     ⟨"file-upload-exec", matches_file_upload_exec, "File upload exploitation - destructive"⟩,
     ⟨"dos-attacks", matches_dos_attacks, "Denial of service - always blocked"⟩]
  requires_validation :=
    [⟨"auth-bypass", matches_auth_bypass, "Authentication testing - validate scope"⟩,
     ⟨"file-inclusion", matches_file_inclusion, "File inclusion - validate if read-only"⟩]

/-- An action descriptor dict; each key read with `.get` and a default
    (scanner 'unknown', template and target the empty string). -/
structure ActionDescriptor where
  scanner : Option String
  template : Option String
  target : Option String

/-- PolicyEngine.validate_scanner_action: scan blocked_patterns in order,
    then requires_validation; the default path returns ALLOWED without
    writing any audit record.  The second component collects the
    log_policy_decision records written on the path taken. -/
def validate_scanner_action (manifest : Manifest) (gemini_key : Bool)
    (gemini : GeminiOutcome) (action_descriptor : ActionDescriptor) :
    Decision × List AuditRecord :=
  let scanner := action_descriptor.scanner.getD "unknown"
  let template := action_descriptor.template.getD ""
  let target := action_descriptor.target.getD ""
  match manifest.blocked_patterns.find? (fun r => r.matcher template) with
  | some blocked =>
      let d : Decision :=
        { decision := "BLOCKED", confidence := 1
          reason := "Template matches blocked pattern: " ++ blocked.id
          details := blocked.notes }
      (d, [⟨target, "scanner_" ++ scanner, d.decision, d.reason, d.confidence⟩])
  | none =>
      match manifest.requires_validation.find? (fun r => r.matcher template) with
      | some validation_rule =>
          if gemini_key then
            let g := validate_action_with_gemini gemini
            (g, [⟨target, "scanner_" ++ scanner ++ "_gemini", g.decision, g.reason, g.confidence⟩])
          else
            let d : Decision :=
              { decision := "REQUIRES_VALIDATION", confidence := mkRat 1 2
                reason := "Template requires validation: " ++ validation_rule.id
                details := validation_rule.notes }
            (d, [⟨target, "scanner_" ++ scanner, d.decision, d.reason, d.confidence⟩])
      | none =>
          let d : Decision :=
            { decision := "ALLOWED", confidence := 1
              reason := "No policy restrictions matched"
              details := "Action is within safe parameters" }
          (d, [])

/-- Fields of the advisory finding-scoring result consumed by
    TriageEngine.score_finding, each read with a `.get` default. -/
structure LlmResult where
  llm_score : Option ℚ
  llm_explanation : Option String
  confidence : Option ℚ
  is_likely_fp : Option Bool

/-- Triage result dictionary assembled by TriageEngine.score_finding. -/
structure TriageResult where
  ml_score : ℚ
  llm_score : ℚ
  final_score : ℚ
  confidence : ℚ
  explanation : String
  is_false_positive : Bool
  severity_adjusted : String

/-- TriageEngine.score_finding as a function of the configured weights, the
    ML component score (result of _ml_score) and the advisory result; the
    finding enters through its severity field, the only one score_finding
    reads besides the text features already folded into ml_score. -/
def score_finding (ml_weight llm_weight ml_score : ℚ) (llm_result : LlmResult)
    (severity : Option String) : TriageResult :=
  let llm_score := llm_result.llm_score.getD (mkRat 1 2)
  let final_score := ml_weight * ml_score + llm_weight * llm_score
  { ml_score := ml_score
    llm_score := llm_score
    final_score := final_score
    confidence := llm_result.confidence.getD (mkRat 1 2)
    explanation := llm_result.llm_explanation.getD ""
    is_false_positive := llm_result.is_likely_fp.getD false || decide (final_score < mkRat 3 10)
    severity_adjusted := adjust_severity severity final_score }

/-- Result of Orchestrator.run_pipeline, together with the list of pipeline
    stages that actually ran (in order). -/
structure PipeResult where
  success : Bool
  reason : Option String
  stages : List String
deriving DecidableEq, Repr

/-- Orchestrator.run_pipeline, at stage granularity.  The scope decision is
    the dict produced by is_target_in_scope; `allow_unblock` is the CLI
    flag, `allow_manual_unblock` the config switch, `user_accepts` whether
    the interactive confirmation input equals the token.  Stage bodies are
    external collaborators and enter only through the stage list. -/
def run_pipeline (scope_decision : Decision)
    (allow_unblock allow_manual_unblock user_accepts : Bool)
    (mode : String) : PipeResult :=
  if scope_decision.decision == "BLOCKED" then
    ⟨false, some "blocked_by_policy", ["scope_check"]⟩
  else if scope_decision.decision == "UNKNOWN" && (!allow_unblock || !allow_manual_unblock) then
    ⟨false, some "unknown_scope", ["scope_check"]⟩
  else if scope_decision.decision == "UNKNOWN" && !user_accepts then
    ⟨false, some "override_declined", ["scope_check"]⟩
  else if mode == "passive-only" then
    ⟨true, none, ["scope_check", "recon"]⟩
  else if mode == "safe-scan" || mode == "full-scan-with-validation" then
    ⟨true, none, ["scope_check", "recon", "probe", "crawl", "scan", "triage", "report"]⟩
  else
    ⟨true, none, ["scope_check", "recon", "probe", "scan", "triage", "report"]⟩

/-- Python `int()` on a rational (truncation toward zero), as applied to
    `time.time()`. -/
def py_int (t : ℚ) : Int :=
  t.num.tdiv t.den

/-- Orchestrator.run_pipeline line 54:
    run_id = f-string of int(time.time()), an underscore, and the target
    with every '.' replaced by '_'. -/
def run_id (t : ℚ) (target : String) : String :=
  toString (py_int t) ++ "_" ++ String.mk (target.toList.map fun c => if c == '.' then '_' else c)

/-- Claim C1: for every target and scope definition, a target matching any
    out_of_scope pattern makes is_target_in_scope return decision BLOCKED
    with confidence 1.0, regardless of the in_scope list and of any advisory
    configuration: the out_of_scope loop runs before the in_scope loop. -/
theorem out_of_scope_blocked_precedence (target : String) (scope_data : ScopeData)
    (gemini_key : Bool) (gemini : GeminiOutcome)
    (h : ∃ p ∈ scope_data.out_of_scope, matches_pattern target p = true) :
    (is_target_in_scope target (some (.ok scope_data)) gemini_key gemini).1.decision
        = "BLOCKED" ∧
    (is_target_in_scope target (some (.ok scope_data)) gemini_key gemini).1.confidence = 1 := by
  obtain ⟨p, hp, hm⟩ := h
  have hs : (scope_data.out_of_scope.find? (fun q => matches_pattern target q)).isSome :=
    List.find?_isSome.mpr ⟨p, hp, by simpa using hm⟩
  obtain ⟨q, hq⟩ := Option.isSome_iff_exists.mp hs
  simp [is_target_in_scope, hq]

/-- Witness for C1: dev.example.com is excluded by the out_of_scope entry even
    though it also matches the in_scope wildcard *.example.com. -/
theorem out_of_scope_blocked_precedence_witness :
    (∃ p ∈ (⟨["*.example.com"], ["dev.example.com"]⟩ : ScopeData).out_of_scope,
      matches_pattern "dev.example.com" p = true) ∧
    matches_pattern "dev.example.com" "*.example.com" = true ∧
    (is_target_in_scope "dev.example.com"
      (some (.ok ⟨["*.example.com"], ["dev.example.com"]⟩)) false (.error "")).1.decision
        = "BLOCKED" :=
  ⟨by decide, by decide,
   (out_of_scope_blocked_precedence "dev.example.com" ⟨["*.example.com"], ["dev.example.com"]⟩
     false (.error "") (by decide)).1⟩

/-- Claim C2: when the advisory call raises during action validation of a
    RequiresValidation-flagged template (no blocked pattern matched, a
    requires_validation pattern matched, GEMINI_API_KEY set), the gate fails
    closed: decision BLOCKED, confidence 0.0, reason naming the failure —
    never ALLOWED and never the provisional REQUIRES_VALIDATION decision;
    the same failure during scope validation (no scope pattern matched)
    instead resolves to UNKNOWN. -/
theorem advisory_failure_fail_closed (manifest : Manifest) (a : ActionDescriptor)
    (e : String) (target : String) (scope_data : ScopeData)
    (hb : ∀ r ∈ manifest.blocked_patterns, r.matcher (a.template.getD "") = false)
    (hv : ∃ r ∈ manifest.requires_validation, r.matcher (a.template.getD "") = true)
    (ho : ∀ p ∈ scope_data.out_of_scope, matches_pattern target p = false)
    (hi : ∀ p ∈ scope_data.in_scope, matches_pattern target p = false) :
    ((validate_scanner_action manifest true (.error e) a).1.decision = "BLOCKED" ∧
     (validate_scanner_action manifest true (.error e) a).1.confidence = 0 ∧
     (validate_scanner_action manifest true (.error e) a).1.reason
        = "Validation error: " ++ e) ∧
    ((is_target_in_scope target (some (.ok scope_data)) true (.error e)).1.decision
        = "UNKNOWN" ∧
     (is_target_in_scope target (some (.ok scope_data)) true (.error e)).1.confidence = 0) := by
  have hbn : manifest.blocked_patterns.find? (fun r => r.matcher (a.template.getD "")) = none :=
    List.find?_eq_none.mpr fun r hr => by simp [hb r hr]
  obtain ⟨rv, hrv, hrm⟩ := hv
  have hvs : (manifest.requires_validation.find? (fun r => r.matcher (a.template.getD ""))).isSome :=
    List.find?_isSome.mpr ⟨rv, hrv, by simpa using hrm⟩
  obtain ⟨q, hq⟩ := Option.isSome_iff_exists.mp hvs
  have hon : scope_data.out_of_scope.find? (fun p => matches_pattern target p) = none :=
    List.find?_eq_none.mpr fun p hp => by simp [ho p hp]
  have hin : scope_data.in_scope.find? (fun p => matches_pattern target p) = none :=
    List.find?_eq_none.mpr fun p hp => by simp [hi p hp]
  constructor
  · simp [validate_scanner_action, hbn, hq, validate_action_with_gemini]
  · simp [is_target_in_scope, hon, hin, validate_scope_with_gemini]

/-- Witness for C2: the auth-bypass-test template against the default
    manifest, and the unmatched target other.org, both with a failed
    advisory call. -/
theorem advisory_failure_fail_closed_witness :
    (∀ r ∈ default_manifest.blocked_patterns,
      r.matcher (((⟨some "nuclei", some "auth-bypass-test", some "example.com"⟩ :
        ActionDescriptor).template).getD "") = false) ∧
    (validate_scanner_action default_manifest true (.error "Connection timeout")
      ⟨some "nuclei", some "auth-bypass-test", some "example.com"⟩).1.decision = "BLOCKED" ∧
    (is_target_in_scope "other.org" (some (.ok ⟨["*.example.com"], ["dev.example.com"]⟩)) true
      (.error "Connection timeout")).1.decision = "UNKNOWN" :=
  ⟨by decide,
   (advisory_failure_fail_closed default_manifest
      ⟨some "nuclei", some "auth-bypass-test", some "example.com"⟩ "Connection timeout"
      "other.org" ⟨["*.example.com"], ["dev.example.com"]⟩
      (by decide) (by decide) (by decide) (by decide)).1.1,
   (advisory_failure_fail_closed default_manifest
      ⟨some "nuclei", some "auth-bypass-test", some "example.com"⟩ "Connection timeout"
      "other.org" ⟨["*.example.com"], ["dev.example.com"]⟩
      (by decide) (by decide) (by decide) (by decide)).2.1⟩

/-- Claim C3 (code bug): _matches_pattern tests a wildcard pattern *.D with a
    plain endswith(D), without requiring a dot boundary, so evilexample.com
    matches *.example.com although it neither equals example.com nor ends
    with ".example.com"; and bare example.com matches *.example.com although
    the repository's own test test_pattern_matching_wildcard asserts it must
    not (the last conjunct evaluates that failing assertion). -/
theorem wildcard_match_missing_dot_boundary :
    matches_pattern "evilexample.com" "*.example.com" = true ∧
    ("evilexample.com" = "example.com" → False) ∧
    py_endswith "evilexample.com" ".example.com" = false ∧
    matches_pattern "example.com" "*.example.com" = true := by decide

/-- Counterexample to claim C4: an advisory payload whose decision field holds
    the out-of-enum value MAYBE is not rejected; the scope escalation returns
    it unchanged, so the gate does return a decision outside
    ALLOWED/BLOCKED/UNKNOWN from an advisory escalation. -/
theorem advisory_enum_passthrough_cex :
    (is_target_in_scope "other.org" (some (.ok ⟨["*.example.com"], ["dev.example.com"]⟩)) true
      (.ok ⟨some "MAYBE", some (mkRat 9 10), some ["r"], none, none⟩)).1.decision = "MAYBE" ∧
    ("MAYBE" = "ALLOWED" → False) ∧ ("MAYBE" = "BLOCKED" → False) ∧
    ("MAYBE" = "UNKNOWN" → False) := by decide

/-- Claim C4 as amended: a payload missing the decision field yields the
    fail default of the respective operation (UNKNOWN for scope validation,
    BLOCKED for action validation), but a payload whose decision field is
    present is passed through unchanged, whatever its value — the gate does
    not validate the decision against the enum. -/
theorem advisory_decision_field_handling (p : ParsedPayload) :
    (p.decision = none →
      (validate_scope_with_gemini (.ok p)).decision = "UNKNOWN" ∧
      (validate_action_with_gemini (.ok p)).decision = "BLOCKED") ∧
    (∀ v, p.decision = some v →
      (validate_scope_with_gemini (.ok p)).decision = v ∧
      (validate_action_with_gemini (.ok p)).decision = v) := by
  constructor
  · intro h
    simp [validate_scope_with_gemini, validate_action_with_gemini, h]
  · intro v h
    simp [validate_scope_with_gemini, validate_action_with_gemini, h]

/-- Witness for the amended C4: the defaults at a payload with no decision
    field, and the passthrough at the out-of-enum value MAYBE. -/
theorem advisory_decision_field_handling_witness :
    (validate_scope_with_gemini (.ok ⟨none, none, none, none, none⟩)).decision = "UNKNOWN" ∧
    (validate_action_with_gemini (.ok ⟨none, none, none, none, none⟩)).decision = "BLOCKED" ∧
    (validate_scope_with_gemini (.ok ⟨some "MAYBE", none, none, none, none⟩)).decision
        = "MAYBE" :=
  ⟨((advisory_decision_field_handling ⟨none, none, none, none, none⟩).1 rfl).1,
   ((advisory_decision_field_handling ⟨none, none, none, none, none⟩).1 rfl).2,
   ((advisory_decision_field_handling ⟨some "MAYBE", none, none, none, none⟩).2 "MAYBE" rfl).1⟩

/-- Claim C5: _adjust_severity, over the severity string the code extracts
    (finding.get('severity','unknown').lower()): score < 0.3 always gives
    info; 0.3 <= score < 0.5 downgrades high/critical to medium and leaves
    every other severity unchanged; score > 0.8 upgrades medium to high and
    leaves every other severity unchanged; 0.5 <= score <= 0.8 leaves the
    severity unchanged.  The closed conjuncts check the spec boundary:
    0.2999 gives info, while at exactly 0.3 the info rule no longer fires
    (high maps to medium, not info). -/
theorem adjust_severity_thresholds (severity : Option String) (score : ℚ) :
    (score < mkRat 3 10 → adjust_severity severity score = "info") ∧
    (mkRat 3 10 ≤ score → score < mkRat 5 10 →
      adjust_severity severity score =
        (if str_to_lower (severity.getD "unknown") = "high" ∨
            str_to_lower (severity.getD "unknown") = "critical"
         then "medium" else str_to_lower (severity.getD "unknown"))) ∧
    (mkRat 8 10 < score →
      adjust_severity severity score =
        (if str_to_lower (severity.getD "unknown") = "medium" then "high"
         else str_to_lower (severity.getD "unknown"))) ∧
    (mkRat 5 10 ≤ score → score ≤ mkRat 8 10 →
      adjust_severity severity score = str_to_lower (severity.getD "unknown")) ∧
    adjust_severity severity (mkRat 2999 10000) = "info" ∧
    adjust_severity (some "high") (mkRat 3 10) = "medium" := by
  have c35 : (mkRat 3 10 : ℚ) ≤ mkRat 5 10 := by decide
  have c58 : (mkRat 5 10 : ℚ) ≤ mkRat 8 10 := by decide
  refine ⟨?_, ?_, ?_, ?_, ?_, by decide⟩
  · intro h
    simp [adjust_severity, h]
  · intro h1 h2
    have hn1 : ¬ score < mkRat 3 10 := not_lt.mpr h1
    simp [adjust_severity, hn1, h2, Bool.or_eq_true, beq_iff_eq]
  · intro h
    have hn2 : ¬ score < mkRat 5 10 := not_lt.mpr (le_trans c58 (le_of_lt h))
    have hn1 : ¬ score < mkRat 3 10 := not_lt.mpr (le_trans (le_trans c35 c58) (le_of_lt h))
    simp [adjust_severity, hn1, hn2, h, beq_iff_eq]
  · intro h1 h2
    have hn1 : ¬ score < mkRat 3 10 := not_lt.mpr (le_trans c35 h1)
    have hn2 : ¬ score < mkRat 5 10 := not_lt.mpr h1
    have hn3 : ¬ mkRat 8 10 < score := not_lt.mpr h2
    simp [adjust_severity, hn1, hn2, hn3]
  · have h : (mkRat 2999 10000 : ℚ) < mkRat 3 10 := by decide
    simp [adjust_severity, h]

/-- Witness for C5: a mid-band score leaves the severity unchanged, e.g.
    high at score 0.6 stays high. -/
theorem adjust_severity_thresholds_witness :
    (mkRat 5 10 : ℚ) ≤ mkRat 3 5 ∧ (mkRat 3 5 : ℚ) ≤ mkRat 8 10 ∧
    adjust_severity (some "high") (mkRat 3 5) = str_to_lower ((some "high").getD "unknown") :=
  ⟨by decide, by decide,
   (adjust_severity_thresholds (some "high") (mkRat 3 5)).2.2.2.1 (by decide) (by decide)⟩

/-- Claim C6: score_finding computes
    final_score = ml_weight * ml_score + llm_weight * llm_score with no
    requirement that the weights sum to 1, and at ml_weight=0.4,
    llm_weight=0.6, ml_score=0.8, llm_score=0.4 the result is exactly
    0.56 = 14/25. -/
theorem fusion_final_score (ml_weight llm_weight ml_score l : ℚ)
    (llm_result : LlmResult) (severity : Option String)
    (h : llm_result.llm_score = some l) :
    (score_finding ml_weight llm_weight ml_score llm_result severity).final_score
        = ml_weight * ml_score + llm_weight * l ∧
    (score_finding (mkRat 2 5) (mkRat 3 5) (mkRat 4 5)
        ⟨some (mkRat 2 5), none, none, none⟩ none).final_score = mkRat 14 25 := by
  constructor
  · simp [score_finding, h]
  · show mkRat 2 5 * mkRat 4 5 + mkRat 3 5 * ((some (mkRat 2 5)).getD (mkRat 1 2))
        = mkRat 14 25
    norm_num [Rat.mkRat_eq_div]

/-- Witness for C6: the end-to-end scenario weights and scores. -/
theorem fusion_final_score_witness :
    ({ llm_score := some (mkRat 2 5), llm_explanation := none, confidence := none,
       is_likely_fp := none } : LlmResult).llm_score = some (mkRat 2 5) ∧
    (score_finding (mkRat 2 5) (mkRat 3 5) (mkRat 4 5)
        ⟨some (mkRat 2 5), none, none, none⟩ none).final_score = mkRat 14 25 :=
  ⟨rfl,
   (fusion_final_score (mkRat 2 5) (mkRat 3 5) (mkRat 4 5) (mkRat 2 5)
     ⟨some (mkRat 2 5), none, none, none⟩ none rfl).2⟩

/-- Counterexample to claim C7: with scope decision UNKNOWN, the override
    enabled by both the flag and the config, and the user declining the
    confirmation, the run fails with reason override_declined — not
    unknown_scope as the claim states for every Unknown without a valid
    manual override. -/
theorem unknown_override_declined_cex :
    run_pipeline ⟨"UNKNOWN", 0, "r", "d"⟩ true true false "safe-scan"
      = ⟨false, some "override_declined", ["scope_check"]⟩ ∧
    ((some "override_declined" : Option String) = some "unknown_scope" → False) := by decide

/-- Claim C7 as amended: BLOCKED fails the run with reason blocked_by_policy
    and no stage after the scope check runs; UNKNOWN with the override
    unavailable (flag or config off) fails with unknown_scope; UNKNOWN with
    the override offered but declined fails with override_declined; and the
    run advances past the scope check exactly when the decision is neither
    BLOCKED nor UNKNOWN (ALLOWED in particular, but any other decision
    string the gate passes through as well) or the decision is UNKNOWN with
    the override enabled and accepted. -/
theorem scope_check_stage_dispatch (scope_decision : Decision)
    (allow_unblock allow_manual_unblock user_accepts : Bool) (mode : String) :
    (scope_decision.decision = "BLOCKED" →
      run_pipeline scope_decision allow_unblock allow_manual_unblock user_accepts mode
        = ⟨false, some "blocked_by_policy", ["scope_check"]⟩) ∧
    (scope_decision.decision = "UNKNOWN" →
      (allow_unblock = false ∨ allow_manual_unblock = false) →
      run_pipeline scope_decision allow_unblock allow_manual_unblock user_accepts mode
        = ⟨false, some "unknown_scope", ["scope_check"]⟩) ∧
    (scope_decision.decision = "UNKNOWN" → allow_unblock = true →
      allow_manual_unblock = true → user_accepts = false →
      run_pipeline scope_decision allow_unblock allow_manual_unblock user_accepts mode
        = ⟨false, some "override_declined", ["scope_check"]⟩) ∧
    ("recon" ∈ (run_pipeline scope_decision allow_unblock allow_manual_unblock
        user_accepts mode).stages ↔
      (scope_decision.decision ≠ "BLOCKED" ∧
        (scope_decision.decision ≠ "UNKNOWN" ∨
          (allow_unblock = true ∧ allow_manual_unblock = true ∧ user_accepts = true)))) := by
  refine ⟨?_, ?_, ?_, ?_⟩
  · intro h
    simp [run_pipeline, h]
  · intro h hf
    rcases hf with h1 | h1 <;> simp [run_pipeline, h, h1]
  · intro h h1 h2 h3
    simp [run_pipeline, h, h1, h2, h3]
  · by_cases hB : scope_decision.decision = "BLOCKED"
    · simp [run_pipeline, hB]
    · by_cases hU : scope_decision.decision = "UNKNOWN"
      · cases allow_unblock <;> cases allow_manual_unblock <;> cases user_accepts <;>
          (simp [run_pipeline, hU]; try (split_ifs <;> simp))
      · have h1 : (scope_decision.decision == "BLOCKED") = false := by
          simpa using hB
        have h2 : (scope_decision.decision == "UNKNOWN") = false := by
          simpa using hU
        simp [run_pipeline, h1, h2, hB, hU]
        split_ifs <;> simp

/-- Witness for the amended C7: a BLOCKED scope decision terminates the run
    with blocked_by_policy and only the scope check in the stage list. -/
theorem scope_check_stage_dispatch_witness :
    run_pipeline ⟨"BLOCKED", 1, "r", "d"⟩ false false false "safe-scan"
      = ⟨false, some "blocked_by_policy", ["scope_check"]⟩ :=
  (scope_check_stage_dispatch ⟨"BLOCKED", 1, "r", "d"⟩ false false false "safe-scan").1 rfl

/-- Claim C9 (code bug): run_id is built from int(time.time()), which has
    one-second resolution, so two pipeline runs against the same target
    within the same wall-clock second produce the same run_id — evaluated
    here at two distinct times 0.7 seconds apart. -/
theorem run_id_same_second_collision :
    run_id (mkRat 17000000002 10) "example.com" = run_id (mkRat 17000000009 10) "example.com" ∧
    ((mkRat 17000000002 10 : ℚ) = mkRat 17000000009 10 → False) ∧
    run_id (mkRat 17000000002 10) "example.com" = "1700000000_example_com" := by decide

/-- Claim C10: an action descriptor whose template matches no blocked pattern
    and no requires-validation pattern gets decision ALLOWED with confidence
    1.0 and writes no audit record (log_policy_decision is not called on the
    default path), whereas any BLOCKED, REQUIRES_VALIDATION or
    advisory-escalated outcome writes an audit record before returning. -/
theorem allowed_default_path_unaudited (manifest : Manifest) (gemini_key : Bool)
    (gemini : GeminiOutcome) (a : ActionDescriptor) :
    ((∀ r ∈ manifest.blocked_patterns, r.matcher (a.template.getD "") = false) →
     (∀ r ∈ manifest.requires_validation, r.matcher (a.template.getD "") = false) →
      validate_scanner_action manifest gemini_key gemini a
        = (⟨"ALLOWED", 1, "No policy restrictions matched",
            "Action is within safe parameters"⟩, [])) ∧
    (((∃ r ∈ manifest.blocked_patterns, r.matcher (a.template.getD "") = true) ∨
      (∃ r ∈ manifest.requires_validation, r.matcher (a.template.getD "") = true)) →
      (validate_scanner_action manifest gemini_key gemini a).2 ≠ []) := by
  constructor
  · intro hb hv
    have hbn : manifest.blocked_patterns.find? (fun r => r.matcher (a.template.getD "")) = none :=
      List.find?_eq_none.mpr fun r hr => by simp [hb r hr]
    have hvn : manifest.requires_validation.find?
        (fun r => r.matcher (a.template.getD "")) = none :=
      List.find?_eq_none.mpr fun r hr => by simp [hv r hr]
    simp [validate_scanner_action, hbn, hvn]
  · intro h
    rcases h with ⟨r, hr, hm⟩ | ⟨r, hr, hm⟩
    · have hs : (manifest.blocked_patterns.find?
          (fun q => q.matcher (a.template.getD ""))).isSome :=
        List.find?_isSome.mpr ⟨r, hr, by simpa using hm⟩
      obtain ⟨q, hq⟩ := Option.isSome_iff_exists.mp hs
      simp [validate_scanner_action, hq]
    · cases hbf : manifest.blocked_patterns.find? (fun q => q.matcher (a.template.getD "")) with
      | some q => simp [validate_scanner_action, hbf]
      | none =>
        have hs : (manifest.requires_validation.find?
            (fun q => q.matcher (a.template.getD ""))).isSome :=
          List.find?_isSome.mpr ⟨r, hr, by simpa using hm⟩
        obtain ⟨q, hq⟩ := Option.isSome_iff_exists.mp hs
        cases gemini_key <;> simp [validate_scanner_action, hbf, hq]

/-- Witness for C10: a plain header-check template matches no manifest rule
    and comes back ALLOWED with an empty audit trail. -/
theorem allowed_default_path_unaudited_witness :
    (∀ r ∈ default_manifest.blocked_patterns,
      r.matcher (((⟨some "nuclei", some "http-missing-security-headers",
        some "example.com"⟩ : ActionDescriptor).template).getD "") = false) ∧
    validate_scanner_action default_manifest false (.error "down")
        ⟨some "nuclei", some "http-missing-security-headers", some "example.com"⟩
      = (⟨"ALLOWED", 1, "No policy restrictions matched",
          "Action is within safe parameters"⟩, []) :=
  ⟨by decide,
   (allowed_default_path_unaudited default_manifest false (.error "down")
     ⟨some "nuclei", some "http-missing-security-headers", some "example.com"⟩).1
     (by decide) (by decide)⟩
